import Mathlib

/-!
Shallow embedding of the device-mode USB gadget API wrappers from
`include/linux/usb/gadget.h` (Linux 4.4-era MSM kernel): the gadget
connect/disconnect/activate/deactivate state machine, the endpoint
enable/disable wrappers, and the optional-operation dispatch fallbacks.

Hardware controller operations (`ops->pullup`, `ops->enable`, ...) are
external code; the wrappers only branch on their integer return value.
They are modelled by passing the return code an invocation would produce
(`hw : Bool → Int` for pullup, an `Int` for enable/disable), and every
wrapper additionally returns the list of hardware operations it invoked,
so that "the hardware operation is not invoked" is expressible.
A successful `pullup(gadget, v)` call drives the pullup line to `v`; a
failed call leaves it unchanged.
-/

namespace UsbGadget

/-- Error number EINVAL (invalid argument); the wrappers return `-EINVAL`. -/
def EINVAL : Int := 22

/-- Error number EOPNOTSUPP (operation not supported). -/
def EOPNOTSUPP : Int := 95

/-- Error number ESHUTDOWN (disconnect-class completion status). -/
def ESHUTDOWN : Int := 108

/-- Operation codes for GSI (hardware-offload) endpoints, from `enum gsi_ep_op`. -/
inductive gsi_ep_op where
  | GSI_EP_OP_CONFIG
  | GSI_EP_OP_STARTXFER
  | GSI_EP_OP_STORE_DBL_INFO
  | GSI_EP_OP_ENABLE_GSI
  | GSI_EP_OP_UPDATEXFER
  | GSI_EP_OP_RING_IN_DB
  | GSI_EP_OP_ENDXFER
  | GSI_EP_OP_GET_CH_INFO
  | GSI_EP_OP_GET_XFER_IDX
  | GSI_EP_OP_PREPARE_TRBS
  | GSI_EP_OP_FREE_TRBS
  | GSI_EP_OP_SET_CLR_BLOCK_DBL
  | GSI_EP_OP_CHECK_FOR_SUSPEND
  | GSI_EP_OP_DISABLE
deriving DecidableEq, Repr

/-- The fields of `struct usb_gadget` that the connection / power state
machine reads and writes: whether `gadget->ops->pullup` is non-NULL,
the physical pullup line (driven by the pullup hardware operation),
and the `connected` and `deactivated` flags. -/
structure Gadget where
  pullup_present : Bool
  pullup_on : Bool
  connected : Bool
  deactivated : Bool
deriving DecidableEq, Repr

/-- A hardware operation invoked through the gadget operation vector:
`pullup v` records a call `gadget->ops->pullup(gadget, v)`. -/
inductive GadgetHwCall where
  | pullup (v : Bool)
deriving DecidableEq, Repr

/-- Invocation of `gadget->ops->pullup(gadget, v)`: `hw v` is the code the
controller returns; on success (zero) the pullup line is driven to `v`,
on failure it is left unchanged.  The invocation is recorded. -/
def gadget_pullup (hw : Bool → Int) (v : Bool) (g : Gadget) :
    Int × Gadget × List GadgetHwCall :=
  let r := hw v
  if r = 0 then (0, { g with pullup_on := v }, [GadgetHwCall.pullup v])
  else (r, g, [GadgetHwCall.pullup v])

/-- `usb_gadget_connect` (gadget.h:1040-1060): `-EOPNOTSUPP` when the pullup
entry is absent; when deactivated, only record `connected := true`; else
assert the pullup and set `connected` on hardware success. -/
def usb_gadget_connect (hw : Bool → Int) (g : Gadget) :
    Int × Gadget × List GadgetHwCall :=
  if g.pullup_present = false then (-EOPNOTSUPP, g, [])
  else if g.deactivated then (0, { g with connected := true }, [])
  else
    let (r, g1, t) := gadget_pullup hw true g
    if r = 0 then (0, { g1 with connected := true }, t)
    else (r, g1, t)

/-- `usb_gadget_disconnect` (gadget.h:1072-1092): `-EOPNOTSUPP` when the
pullup entry is absent; when deactivated, only record `connected := false`;
else deassert the pullup and clear `connected` on hardware success. -/
def usb_gadget_disconnect (hw : Bool → Int) (g : Gadget) :
    Int × Gadget × List GadgetHwCall :=
  if g.pullup_present = false then (-EOPNOTSUPP, g, [])
  else if g.deactivated then (0, { g with connected := false }, [])
  else
    let (r, g1, t) := gadget_pullup hw false g
    if r = 0 then (0, { g1 with connected := false }, t)
    else (r, g1, t)

/-- `usb_gadget_deactivate` (gadget.h:1119-1139): no-op when already
deactivated; when connected, first `usb_gadget_disconnect` (propagating its
error), then restore the logical `connected` intent; finally mark
deactivated. -/
def usb_gadget_deactivate (hw : Bool → Int) (g : Gadget) :
    Int × Gadget × List GadgetHwCall :=
  if g.deactivated then (0, g, [])
  else if g.connected then
    let (r, g1, t) := usb_gadget_disconnect hw g
    if r = 0 then (0, { g1 with connected := true, deactivated := true }, t)
    else (r, g1, t)
  else (0, { g with deactivated := true }, [])

/-- `usb_gadget_activate` (gadget.h:1150-1165): no-op when not deactivated;
clear `deactivated`, then `usb_gadget_connect` if the preserved intent is
connected. -/
def usb_gadget_activate (hw : Bool → Int) (g : Gadget) :
    Int × Gadget × List GadgetHwCall :=
  if g.deactivated = false then (0, g, [])
  else
    let g1 := { g with deactivated := false }
    if g1.connected then usb_gadget_connect hw g1
    else (0, g1, [])

/-- Gadget states reachable from the initial state (pullup deasserted,
`connected = false`, `deactivated = false`) by any sequence of connect,
disconnect, deactivate and activate calls; at each call the pullup
operation of the controller may return any code (`hw` is arbitrary).  The operation
vector (`pullup_present`) is fixed at registration. -/
inductive Reachable : Gadget → Prop where
  | init (p : Bool) : Reachable ⟨p, false, false, false⟩
  | connect (g : Gadget) (hw : Bool → Int) : Reachable g →
      Reachable (usb_gadget_connect hw g).2.1
  | disconnect (g : Gadget) (hw : Bool → Int) : Reachable g →
      Reachable (usb_gadget_disconnect hw g).2.1
  | deactivate (g : Gadget) (hw : Bool → Int) : Reachable g →
      Reachable (usb_gadget_deactivate hw g).2.1
  | activate (g : Gadget) (hw : Bool → Int) : Reachable g →
      Reachable (usb_gadget_activate hw g).2.1

/-- The pullup invariant of §4.3: the pullup line is asserted only while
the gadget is not deactivated and the logical connect intent holds. -/
def PullupInv (g : Gadget) : Prop :=
  g.pullup_on = true → g.deactivated = false ∧ g.connected = true

/-- The fields of `struct usb_endpoint_descriptor` the wrappers read:
its (little-endian 16-bit) `wMaxPacketSize`. -/
structure usb_endpoint_descriptor where
  wMaxPacketSize : Nat
deriving DecidableEq, Repr

/-- Modelled from the spec: `usb_endpoint_maxp` lives in `linux/usb/ch9.h`,
which is not among the sources of this repository; per the spec it yields
the negotiated maximum packet size of the descriptor, i.e. `wMaxPacketSize`.
A NULL descriptor is a caller error in C; it is read here as size 0. -/
def usb_endpoint_maxp : Option usb_endpoint_descriptor → Nat
  | some d => d.wMaxPacketSize
  | none => 0

/-- The fields of `struct usb_ep` that `usb_ep_enable` / `usb_ep_disable`
read and write: the `enabled` flag, the bound descriptor `desc`, and the
packet-size fields (`maxpacket` may be reduced per descriptor, up to the
fixed `maxpacket_limit`). -/
structure usb_ep where
  enabled : Bool
  desc : Option usb_endpoint_descriptor
  maxpacket : Nat
  maxpacket_limit : Nat
deriving DecidableEq, Repr

/-- A hardware operation invoked through the endpoint operation vector. -/
inductive EpHwCall where
  | enable
  | disable
deriving DecidableEq, Repr

/-- `usb_ep_set_maxpacket_limit` (gadget.h:330-335): initializes both
`maxpacket_limit` and `maxpacket` to the hardware ceiling. -/
def usb_ep_set_maxpacket_limit (ep : usb_ep) (limit : Nat) : usb_ep :=
  { ep with maxpacket_limit := limit, maxpacket := limit }

/-- `usb_ep_enable` (gadget.h:357-381): success no-op when already enabled;
`-EINVAL` (before any hardware call) when the max packet size of the bound
descriptor is zero; else invoke `ops->enable` (whose return code is `hw`),
propagate its failure, and mark the endpoint enabled on success. -/
def usb_ep_enable (hw : Int) (ep : usb_ep) : Int × usb_ep × List EpHwCall :=
  if ep.enabled then (0, ep, [])
  else if usb_endpoint_maxp ep.desc = 0 then (-EINVAL, ep, [])
  else if hw = 0 then (0, { ep with enabled := true }, [EpHwCall.enable])
  else (hw, ep, [EpHwCall.enable])

/-- `usb_ep_disable` (gadget.h:395-409): success no-op when already
disabled; else invoke `ops->disable` (return code `hw`), propagate its
failure, and clear the `enabled` flag on success.  No other field of the
endpoint is written. -/
def usb_ep_disable (hw : Int) (ep : usb_ep) : Int × usb_ep × List EpHwCall :=
  if ep.enabled = false then (0, ep, [])
  else if hw = 0 then (0, { ep with enabled := false }, [EpHwCall.disable])
  else (hw, ep, [EpHwCall.disable])

/-- The optional entries of `struct usb_ep_ops` the fallback wrappers
branch on, each modelled by the return code its invocation would produce
(`none` = NULL table entry).  `set_halt` is a mandatory entry; its argument
is the halt value (1 = set, 0 = clear). -/
structure usb_ep_ops where
  set_halt : Nat → Int
  set_wedge : Option Int
  fifo_status : Option Int
  gsi_ep_op : Option (gsi_ep_op → Int)

/-- `usb_ep_set_halt` (gadget.h:550-553): dispatch `ops->set_halt(ep, 1)`. -/
def usb_ep_set_halt (ops : usb_ep_ops) : Int :=
  ops.set_halt 1

/-- `usb_ep_clear_halt` (gadget.h:568-571): dispatch `ops->set_halt(ep, 0)`. -/
def usb_ep_clear_halt (ops : usb_ep_ops) : Int :=
  ops.set_halt 0

/-- `usb_ep_set_wedge` (gadget.h:583-590): dispatch `ops->set_wedge` when
present, else fall back to `ops->set_halt(ep, 1)`. -/
def usb_ep_set_wedge (ops : usb_ep_ops) : Int :=
  match ops.set_wedge with
  | some r => r
  | none => ops.set_halt 1

/-- `usb_ep_fifo_status` (gadget.h:607-613): dispatch `ops->fifo_status`
when present, else `-EOPNOTSUPP`. -/
def usb_ep_fifo_status (ops : usb_ep_ops) : Int :=
  match ops.fifo_status with
  | some r => r
  | none => -EOPNOTSUPP

/-- `usb_gsi_ep_op` (gadget.h:636-643): dispatch `ops->gsi_ep_op` on the
operation code when present, else `-EOPNOTSUPP`. -/
def usb_gsi_ep_op (ops : usb_ep_ops) (op : gsi_ep_op) : Int :=
  match ops.gsi_ep_op with
  | some f => f op
  | none => -EOPNOTSUPP

/-- The optional entries of `struct usb_gadget_ops` used by the fallback
wrappers modelled here (`none` = NULL table entry). -/
structure usb_gadget_ops where
  wakeup : Option Int

/-- `usb_gadget_wakeup` (gadget.h:912-917): dispatch `ops->wakeup` when
present, else `-EOPNOTSUPP`. -/
def usb_gadget_wakeup (ops : usb_gadget_ops) : Int :=
  match ops.wakeup with
  | some r => r
  | none => -EOPNOTSUPP

/-! Preservation of the pullup invariant under each state-machine call. -/

/-- Invariant preservation: `usb_gadget_connect` keeps `PullupInv`. -/
theorem PullupInv_connect (hw : Bool → Int) (g : Gadget) (h : PullupInv g) :
    PullupInv (usb_gadget_connect hw g).2.1 := by
  unfold PullupInv at *
  unfold usb_gadget_connect gadget_pullup
  by_cases hp : g.pullup_present = false <;>
    by_cases hd : g.deactivated <;>
    by_cases hr : hw true = 0 <;>
    simp_all

/-- Invariant preservation: `usb_gadget_disconnect` keeps `PullupInv`. -/
theorem PullupInv_disconnect (hw : Bool → Int) (g : Gadget) (h : PullupInv g) :
    PullupInv (usb_gadget_disconnect hw g).2.1 := by
  unfold PullupInv at *
  unfold usb_gadget_disconnect gadget_pullup
  by_cases hp : g.pullup_present = false <;>
    by_cases hd : g.deactivated <;>
    by_cases hr : hw false = 0 <;>
    simp_all

/-- Invariant preservation: `usb_gadget_deactivate` keeps `PullupInv`. -/
theorem PullupInv_deactivate (hw : Bool → Int) (g : Gadget) (h : PullupInv g) :
    PullupInv (usb_gadget_deactivate hw g).2.1 := by
  unfold PullupInv at *
  unfold usb_gadget_deactivate usb_gadget_disconnect gadget_pullup
  by_cases hd : g.deactivated <;>
    by_cases hc : g.connected <;>
    by_cases hp : g.pullup_present = false <;>
    by_cases hr : hw false = 0 <;>
    simp_all [EOPNOTSUPP]

/-- Invariant preservation: `usb_gadget_activate` keeps `PullupInv`. -/
theorem PullupInv_activate (hw : Bool → Int) (g : Gadget) (h : PullupInv g) :
    PullupInv (usb_gadget_activate hw g).2.1 := by
  unfold PullupInv at *
  unfold usb_gadget_activate usb_gadget_connect gadget_pullup
  by_cases hd : g.deactivated <;>
    by_cases hc : g.connected <;>
    by_cases hp : g.pullup_present = false <;>
    by_cases hr : hw true = 0 <;>
    simp_all [EOPNOTSUPP]

/-- Every reachable gadget state satisfies the pullup invariant. -/
theorem Reachable_PullupInv (g : Gadget) (h : Reachable g) : PullupInv g := by
  induction h with
  | init p => intro h; simp at h
  | connect g hw _ ih => exact PullupInv_connect hw g ih
  | disconnect g hw _ ih => exact PullupInv_disconnect hw g ih
  | deactivate g hw _ ih => exact PullupInv_deactivate hw g ih
  | activate g hw _ ih => exact PullupInv_activate hw g ih

/-- Claim C1 fails as stated: with prior flags `connected = true`,
`deactivated = true` (a reachable combination, pullup line deasserted) and
a succeeding pullup operation, `usb_gadget_deactivate` is a no-op and
`usb_gadget_activate` then asserts the pullup, so the pullup does not
return to its prior (deasserted) state. -/
theorem C1_counterexample :
    (usb_gadget_activate (fun _ => 0)
        (usb_gadget_deactivate (fun _ => 0)
          (⟨true, false, true, true⟩ : Gadget)).2.1).2.1.pullup_on ≠
      (⟨true, false, true, true⟩ : Gadget).pullup_on := by
  decide

/-- Claim C1 (amended): for every gadget with the pullup operation present
and succeeding, not deactivated, and whose pullup line agrees with the
connected intent, `usb_gadget_deactivate` followed by `usb_gadget_activate`
restores the whole gadget state — in particular the pullup line and the
`connected` flag — to exactly its prior value. -/
theorem C1_deactivate_activate_restores (g : Gadget) (hw : Bool → Int)
    (hp : g.pullup_present = true) (hd : g.deactivated = false)
    (hinv : g.pullup_on = g.connected)
    (hw1 : hw true = 0) (hw0 : hw false = 0) :
    (usb_gadget_activate hw (usb_gadget_deactivate hw g).2.1).2.1 = g := by
  rcases g with ⟨p, pu, c, d⟩
  simp only at hp hd hinv
  subst hp hd hinv
  cases pu <;>
    simp [usb_gadget_deactivate, usb_gadget_disconnect, usb_gadget_connect,
      usb_gadget_activate, gadget_pullup, hw1, hw0]

/-- Claim C1 witness: a connected, active gadget with succeeding hardware
round-trips through deactivate and activate back to itself. -/
theorem C1_witness :
    (⟨true, true, true, false⟩ : Gadget).pullup_present = true ∧
    (usb_gadget_activate (fun _ => 0)
        (usb_gadget_deactivate (fun _ => 0)
          (⟨true, true, true, false⟩ : Gadget)).2.1).2.1 =
      (⟨true, true, true, false⟩ : Gadget) :=
  ⟨rfl, C1_deactivate_activate_restores ⟨true, true, true, false⟩ (fun _ => 0)
    rfl rfl rfl rfl rfl⟩

/-- Claim C2 fails as stated for a gadget whose operation vector lacks the
pullup entry: on such a deactivated gadget `usb_gadget_connect` returns
`-EOPNOTSUPP` instead of success and does not record `connected = true`. -/
theorem C2_counterexample :
    (usb_gadget_connect (fun _ => 0) (⟨false, false, false, true⟩ : Gadget)).1 ≠ 0 ∧
    (usb_gadget_connect (fun _ => 0)
      (⟨false, false, false, true⟩ : Gadget)).2.1.connected = false := by
  decide

/-- Claim C2 (amended): for every deactivated gadget whose pullup operation
is present, `usb_gadget_connect` only records `connected := true` and
returns success without invoking any hardware operation, and
`usb_gadget_disconnect` symmetrically only clears `connected`. -/
theorem C2_deactivated_saves_intent_only (g : Gadget) (hw : Bool → Int)
    (hp : g.pullup_present = true) (hd : g.deactivated = true) :
    usb_gadget_connect hw g = (0, { g with connected := true }, []) ∧
    usb_gadget_disconnect hw g = (0, { g with connected := false }, []) := by
  constructor <;>
    simp [usb_gadget_connect, usb_gadget_disconnect, hp, hd]

/-- Claim C2 witness: a concrete deactivated gadget with the pullup entry
present records intent only, with an empty hardware-call trace. -/
theorem C2_witness :
    (⟨true, false, false, true⟩ : Gadget).pullup_present = true ∧
    usb_gadget_connect (fun _ => 0) (⟨true, false, false, true⟩ : Gadget) =
      (0, ⟨true, false, true, true⟩, []) ∧
    usb_gadget_disconnect (fun _ => 0) (⟨true, false, false, true⟩ : Gadget) =
      (0, ⟨true, false, false, true⟩, []) :=
  ⟨rfl, C2_deactivated_saves_intent_only ⟨true, false, false, true⟩ (fun _ => 0) rfl rfl⟩

/-- Claim C3: on a disabled endpoint whose bound descriptor has max packet
size zero, `usb_ep_enable` returns `-EINVAL`, leaves the endpoint unchanged
(so it stays disabled), and invokes no hardware operation. -/
theorem C3_enable_zero_maxp (ep : usb_ep) (hw : Int) (d : usb_endpoint_descriptor)
    (hen : ep.enabled = false) (hdesc : ep.desc = some d)
    (hmp : d.wMaxPacketSize = 0) :
    usb_ep_enable hw ep = (-EINVAL, ep, []) := by
  simp [usb_ep_enable, usb_endpoint_maxp, hen, hdesc, hmp]

/-- Claim C3 witness: the scenario of §8 — `maxpacket_limit = 64`, a
descriptor with negotiated max packet 0 — fails with `-EINVAL`. -/
theorem C3_witness :
    (⟨false, some ⟨0⟩, 64, 64⟩ : usb_ep).enabled = false ∧
    usb_ep_enable 0 (⟨false, some ⟨0⟩, 64, 64⟩ : usb_ep) =
      (-EINVAL, ⟨false, some ⟨0⟩, 64, 64⟩, []) :=
  ⟨rfl, C3_enable_zero_maxp ⟨false, some ⟨0⟩, 64, 64⟩ 0 ⟨0⟩ rfl rfl rfl⟩

/-- Claim C4 fails in its second half: a successful `usb_ep_disable` of an
enabled endpoint marks it disabled but does not clear the bound descriptor
reference — `desc` is still `some` afterwards. -/
theorem C4_counterexample :
    usb_ep_disable 0 (⟨true, some ⟨64⟩, 64, 64⟩ : usb_ep) =
      (0, ⟨false, some ⟨64⟩, 64, 64⟩, [EpHwCall.disable]) ∧
    (usb_ep_disable 0 (⟨true, some ⟨64⟩, 64, 64⟩ : usb_ep)).2.1.desc ≠ none := by
  decide

/-- Claim C4 (amended): `usb_ep_disable` on an already-disabled endpoint is
a no-op returning success, and a successful disable of an enabled endpoint
clears only the `enabled` flag; the bound descriptor reference is left in
place (clearing it is left to the function driver). -/
theorem C4_disable (ep : usb_ep) (hw : Int) :
    (ep.enabled = false → usb_ep_disable hw ep = (0, ep, [])) ∧
    (ep.enabled = true → hw = 0 →
      usb_ep_disable hw ep = (0, { ep with enabled := false }, [EpHwCall.disable])) := by
  constructor
  · intro hen
    simp [usb_ep_disable, hen]
  · intro hen hhw
    simp [usb_ep_disable, hen, hhw]

/-- Claim C4 witness: a disabled endpoint is untouched, and an enabled one
is marked disabled with its descriptor still bound. -/
theorem C4_witness :
    usb_ep_disable 0 (⟨false, none, 64, 64⟩ : usb_ep) = (0, ⟨false, none, 64, 64⟩, []) ∧
    usb_ep_disable 0 (⟨true, some ⟨64⟩, 64, 64⟩ : usb_ep) =
      (0, ⟨false, some ⟨64⟩, 64, 64⟩, [EpHwCall.disable]) :=
  ⟨(C4_disable ⟨false, none, 64, 64⟩ 0).1 rfl,
   (C4_disable ⟨true, some ⟨64⟩, 64, 64⟩ 0).2 rfl rfl⟩

/-- Claim C5: after any successful `usb_ep_enable`, a second enable without
an intervening disable returns success, leaves the endpoint state
unchanged, and invokes no hardware operation (no resource duplication). -/
theorem C5_enable_idempotent (ep : usb_ep) (hw1 hw2 : Int)
    (hfirst : (usb_ep_enable hw1 ep).1 = 0) :
    usb_ep_enable hw2 (usb_ep_enable hw1 ep).2.1 =
      (0, (usb_ep_enable hw1 ep).2.1, []) := by
  have hen : (usb_ep_enable hw1 ep).2.1.enabled = true := by
    unfold usb_ep_enable at *
    by_cases h1 : ep.enabled <;>
      by_cases h2 : usb_endpoint_maxp ep.desc = 0 <;>
      by_cases h3 : hw1 = 0 <;>
      simp_all [EINVAL]
  generalize (usb_ep_enable hw1 ep).2.1 = ep1 at hen ⊢
  simp [usb_ep_enable, hen]

/-- Claim C5 witness: enabling a 64-byte endpoint twice — the second call
is a pure success no-op with an empty hardware-call trace. -/
theorem C5_witness :
    (usb_ep_enable 0 (⟨false, some ⟨64⟩, 64, 64⟩ : usb_ep)).1 = 0 ∧
    usb_ep_enable 0 (usb_ep_enable 0 (⟨false, some ⟨64⟩, 64, 64⟩ : usb_ep)).2.1 =
      (0, (usb_ep_enable 0 (⟨false, some ⟨64⟩, 64, 64⟩ : usb_ep)).2.1, []) :=
  ⟨rfl, C5_enable_idempotent ⟨false, some ⟨64⟩, 64, 64⟩ 0 0 rfl⟩

/-- Claim C6: in every gadget state reachable from the initial state by
any sequence of connect, disconnect, deactivate and activate calls (with
arbitrary hardware outcomes), the pullup line is asserted only while
`deactivated = false` and the connect intent is `true`. -/
theorem C6_pullup_invariant (g : Gadget) (h : Reachable g)
    (hon : g.pullup_on = true) : g.deactivated = false ∧ g.connected = true :=
  Reachable_PullupInv g h hon

/-- Claim C6 witness: the state reached by a successful connect from the
initial state has the pullup asserted, is not deactivated, and is
connected. -/
theorem C6_witness :
    (usb_gadget_connect (fun _ => 0) (⟨true, false, false, false⟩ : Gadget)).2.1.deactivated
        = false ∧
    (usb_gadget_connect (fun _ => 0) (⟨true, false, false, false⟩ : Gadget)).2.1.connected
        = true :=
  C6_pullup_invariant _
    (Reachable.connect ⟨true, false, false, false⟩ (fun _ => 0) (Reachable.init true))
    (by decide)

/-- Claim C7: on an active gadget whose pullup operation succeeds, a second
`usb_gadget_connect` from the once-connected state yields exactly the
once-connected state (pullup asserted, `connected = true`), and likewise a
second `usb_gadget_disconnect` yields the once-disconnected state. -/
theorem C7_connect_disconnect_idempotent (g : Gadget) (hw : Bool → Int)
    (hp : g.pullup_present = true) (hd : g.deactivated = false)
    (hw1 : hw true = 0) (hw0 : hw false = 0) :
    usb_gadget_connect hw g =
      (0, { g with pullup_on := true, connected := true }, [GadgetHwCall.pullup true]) ∧
    usb_gadget_connect hw { g with pullup_on := true, connected := true } =
      (0, { g with pullup_on := true, connected := true }, [GadgetHwCall.pullup true]) ∧
    usb_gadget_disconnect hw g =
      (0, { g with pullup_on := false, connected := false }, [GadgetHwCall.pullup false]) ∧
    usb_gadget_disconnect hw { g with pullup_on := false, connected := false } =
      (0, { g with pullup_on := false, connected := false }, [GadgetHwCall.pullup false]) := by
  refine ⟨?_, ?_, ?_, ?_⟩ <;>
    simp [usb_gadget_connect, usb_gadget_disconnect, gadget_pullup, hp, hd, hw1, hw0]

/-- Claim C7 witness: connect twice and disconnect twice on a concrete
active gadget, each pair ending in the same state as one call. -/
theorem C7_witness :
    usb_gadget_connect (fun _ => 0) (⟨true, false, false, false⟩ : Gadget) =
      (0, ⟨true, true, true, false⟩, [GadgetHwCall.pullup true]) ∧
    usb_gadget_connect (fun _ => 0) (⟨true, true, true, false⟩ : Gadget) =
      (0, ⟨true, true, true, false⟩, [GadgetHwCall.pullup true]) ∧
    usb_gadget_disconnect (fun _ => 0) (⟨true, false, false, false⟩ : Gadget) =
      (0, ⟨true, false, false, false⟩, [GadgetHwCall.pullup false]) ∧
    usb_gadget_disconnect (fun _ => 0) (⟨true, false, false, false⟩ : Gadget) =
      (0, ⟨true, false, false, false⟩, [GadgetHwCall.pullup false]) :=
  C7_connect_disconnect_idempotent ⟨true, false, false, false⟩ (fun _ => 0)
    rfl rfl rfl rfl

/-- Claim C8: absent optional table entries take the documented fallback:
`usb_ep_set_wedge` falls back to `set_halt` with value 1,
`usb_ep_fifo_status` and `usb_gadget_wakeup` return `-EOPNOTSUPP`, and
`usb_gsi_ep_op` returns `-EOPNOTSUPP` for every offload operation code. -/
theorem C8_optional_op_fallbacks (eops : usb_ep_ops) (gops : usb_gadget_ops) :
    (eops.set_wedge = none → usb_ep_set_wedge eops = eops.set_halt 1) ∧
    (eops.fifo_status = none → usb_ep_fifo_status eops = -EOPNOTSUPP) ∧
    (gops.wakeup = none → usb_gadget_wakeup gops = -EOPNOTSUPP) ∧
    (eops.gsi_ep_op = none → ∀ op, usb_gsi_ep_op eops op = -EOPNOTSUPP) := by
  refine ⟨?_, ?_, ?_, ?_⟩ <;> intro h
  · simp [usb_ep_set_wedge, h]
  · simp [usb_ep_fifo_status, h]
  · simp [usb_gadget_wakeup, h]
  · intro op
    simp [usb_gsi_ep_op, h]

/-- Claim C8 witness: a table with every optional entry absent takes each
fallback on concrete inputs. -/
theorem C8_witness :
    usb_ep_set_wedge ⟨fun _ => -5, none, none, none⟩ =
      (⟨fun _ => -5, none, none, none⟩ : usb_ep_ops).set_halt 1 ∧
    usb_ep_fifo_status ⟨fun _ => -5, none, none, none⟩ = -EOPNOTSUPP ∧
    usb_gadget_wakeup ⟨none⟩ = -EOPNOTSUPP ∧
    usb_gsi_ep_op ⟨fun _ => -5, none, none, none⟩ gsi_ep_op.GSI_EP_OP_CONFIG =
      -EOPNOTSUPP :=
  ⟨(C8_optional_op_fallbacks ⟨fun _ => -5, none, none, none⟩ ⟨none⟩).1 rfl,
   (C8_optional_op_fallbacks ⟨fun _ => -5, none, none, none⟩ ⟨none⟩).2.1 rfl,
   (C8_optional_op_fallbacks ⟨fun _ => -5, none, none, none⟩ ⟨none⟩).2.2.1 rfl,
   (C8_optional_op_fallbacks ⟨fun _ => -5, none, none, none⟩ ⟨none⟩).2.2.2 rfl
     gsi_ep_op.GSI_EP_OP_CONFIG⟩

/-- Claim C9: on a gadget whose operation vector lacks the pullup entry,
`usb_gadget_connect` and `usb_gadget_disconnect` return `-EOPNOTSUPP` and
leave the whole gadget state — in particular `connected` and
`deactivated` — unchanged, with no hardware call. -/
theorem C9_no_pullup_op (g : Gadget) (hw : Bool → Int)
    (hp : g.pullup_present = false) :
    usb_gadget_connect hw g = (-EOPNOTSUPP, g, []) ∧
    usb_gadget_disconnect hw g = (-EOPNOTSUPP, g, []) := by
  constructor <;> simp [usb_gadget_connect, usb_gadget_disconnect, hp]

/-- Claim C9 witness: a deactivated gadget without a pullup entry — no
intent is recorded by either call. -/
theorem C9_witness :
    usb_gadget_connect (fun _ => 0) (⟨false, false, false, true⟩ : Gadget) =
      (-EOPNOTSUPP, ⟨false, false, false, true⟩, []) ∧
    usb_gadget_disconnect (fun _ => 0) (⟨false, false, false, true⟩ : Gadget) =
      (-EOPNOTSUPP, ⟨false, false, false, true⟩, []) :=
  C9_no_pullup_op ⟨false, false, false, true⟩ (fun _ => 0) rfl

/-- Claim C10: on a connected, active gadget, when the pullup-deassert
operation fails during `usb_gadget_deactivate`, the call returns that
error and the gadget state is unchanged — `connected` stays `true` and
`deactivated` stays `false`. -/
theorem C10_deactivate_error_atomic (g : Gadget) (hw : Bool → Int)
    (hp : g.pullup_present = true) (hc : g.connected = true)
    (hd : g.deactivated = false) (hfail : hw false ≠ 0) :
    usb_gadget_deactivate hw g = (hw false, g, [GadgetHwCall.pullup false]) := by
  simp [usb_gadget_deactivate, usb_gadget_disconnect, gadget_pullup,
    hp, hc, hd, hfail]

/-- Claim C10 witness: a pullup operation failing with -5 leaves a
connected, active gadget exactly as it was. -/
theorem C10_witness :
    ((-5 : Int) ≠ 0) ∧
    usb_gadget_deactivate (fun _ => -5) (⟨true, true, true, false⟩ : Gadget) =
      (-5, ⟨true, true, true, false⟩, [GadgetHwCall.pullup false]) :=
  ⟨by decide,
   C10_deactivate_error_atomic ⟨true, true, true, false⟩ (fun _ => -5)
     rfl rfl rfl (by decide)⟩

end UsbGadget
